import Mathlib

/-!
Shallow embedding of the client logic in `frontend/js/auth.js` of the
python-js-authentication-system repository, together with theorems that
settle the specification claims about it.

JavaScript strings are modelled by Lean `String`; `null`/`undefined` and
the other primitive payload values by `JsVal`; a JS object literal passed
as request data by an association list `List (String × JsVal)`; the parsed
JSON response object by the record `JsObject`, which carries exactly the
fields the client reads.  `trim`, `includes`, `startsWith`, `toLowerCase`
and the `replace(/[^0-9]/g, "")` sanitizer are given explicit list-based
definitions below with the same semantics on the ASCII data this client
handles.  `fetch` outcomes are modelled by `FetchOutcome`; JSON parsing is
a parameter `parse : String → Option JsObject` (a `none` result is a parse
failure or a JSON value on which the read fields are all absent).
-/

namespace AuthClient

/-- A primitive JavaScript value appearing in a request-data object. -/
inductive JsVal where
  | vNull
  | vUndefined
  | vStr (s : String)
  | vNum (n : Int)
  | vBool (b : Bool)
deriving DecidableEq

/-- The test `data[key] !== null && data[key] !== undefined && data[key] !== ''`
from `apiRequest` (auth.js lines 53-56): `true` when the value is kept. -/
def JsVal.kept : JsVal → Bool
  | .vNull => false
  | .vUndefined => false
  | .vStr s => !(s = "")
  | .vNum _ => true
  | .vBool _ => true

/-- JavaScript `String.prototype.trim`: drop leading and trailing whitespace. -/
def jsTrim (s : String) : String :=
  String.mk (((s.toList.dropWhile Char.isWhitespace).reverse.dropWhile
      Char.isWhitespace).reverse)

/-- The `input` listener on the OTP field (auth.js line 587):
`e.target.value = e.target.value.replace(/[^0-9]/g, '')`. -/
def otpSanitize (s : String) : String :=
  String.mk (s.toList.filter Char.isDigit)

/-- `listStarts p l` holds when the list `l` begins with the pattern `p`. -/
def listStarts : List Char → List Char → Bool
  | [], _ => true
  | _ :: _, [] => false
  | p :: ps, c :: cs => p = c && listStarts ps cs

/-- `listHasSub sub l` holds when `sub` occurs contiguously inside `l`. -/
def listHasSub (sub : List Char) : List Char → Bool
  | [] => listStarts sub []
  | c :: cs => listStarts sub (c :: cs) || listHasSub sub cs

/-- JavaScript `String.prototype.includes`. -/
def jsIncludes (s sub : String) : Bool :=
  listHasSub sub.toList s.toList

/-- JavaScript `String.prototype.toLowerCase` on ASCII data. -/
def jsToLower (s : String) : String :=
  String.mk (s.toList.map Char.toLower)

/-- JavaScript `a || b` on an optional string `a` (absent and `''` are falsy). -/
def jsOrOpt (a : Option String) (b : String) : String :=
  match a with
  | none => b
  | some s => if s = "" then b else s

/-- JavaScript `a || b` on a string `a` (`''` is falsy). -/
def jsOrS (a b : String) : String :=
  if a = "" then b else a

/-- The fields of a parsed JSON response that the client reads.
`dataDirectLogin` models `result.data?.direct_login` being truthy,
`directLogin` models `result.direct_login`, `dataIdentifier` models
`result.data?.identifier`, and so on. -/
structure JsObject where
  success : Bool := false
  message : Option String := none
  dataDirectLogin : Bool := false
  directLogin : Bool := false
  dataIdentifier : Option String := none
  identifier : Option String := none
  authenticated : Bool := false
deriving DecidableEq

/-- Outcome of the `fetch` call and of reading the response body:
network failure (the promise rejects with message `msg`), a failure of
`response.text()`, or a delivered response with HTTP status, raw
`content-type` header value, and body text. -/
inductive FetchOutcome where
  | netFail (msg : String)
  | readFail (status : Nat)
  | got (status : Nat) (contentType : String) (body : String)
deriving DecidableEq

/-- What `apiRequest` does from the caller's point of view: return the
parsed object, or throw an `Error` with the given message. -/
inductive ApiOutcome where
  | success (result : JsObject)
  | failure (msg : String)
deriving DecidableEq

/-- The null-field stripping loop of `apiRequest` (auth.js lines 52-57). -/
def cleanData (data : List (String × JsVal)) : List (String × JsVal) :=
  data.filter (fun kv => kv.2.kept)

/-- The request options built by `apiRequest` (auth.js lines 42-59): the
body is attached only for a truthy `data` argument and a non-GET method. -/
def apiRequestBody (method : String) (data : Option (List (String × JsVal))) :
    Option (List (String × JsVal)) :=
  match data with
  | none => none
  | some d => if method = "GET" then none else some (cleanData d)

/-- Decimal rendering of a natural number, modelling the template-string
interpolation of `response.status` in the error messages of `apiRequest`. -/
def decimalChars : Nat → List Char
  | 0 => []
  | n + 1 =>
    decimalChars ((n + 1) / 10) ++ ["0123456789".toList.getD ((n + 1) % 10) '0']
decreasing_by exact Nat.div_lt_self (Nat.succ_pos n) (by omega)

/-- Decimal string of a natural number. -/
def decimalStr (n : Nat) : String :=
  if n = 0 then "0" else String.mk (decimalChars n)

/-- The message thrown on a network failure and by the catch-all rewrite
(auth.js lines 75 and 121). -/
def connectionErrorMsg : String :=
  "Server connection error. Please ensure the server is running."

/-- The message thrown when the response body is empty (auth.js line 81). -/
def emptyResponseMsg (status : Nat) : String :=
  "Server returned empty response (Status: " ++ decimalStr status ++
    "). Please check the server."

/-- The message thrown when a JSON-looking body fails to parse
(auth.js line 96). -/
def invalidJsonMsg (body : String) : String :=
  "Invalid JSON response from server: " ++ String.mk (body.toList.take 100)

/-- The message thrown for a body not recognized as JSON (auth.js line 102). -/
def nonJsonMsg (status : Nat) : String :=
  "Server returned non-JSON response (Status: " ++ decimalStr status ++
    "). Please check the server."

/-- `response.ok`: HTTP status in the range 200-299. -/
def respOk (status : Nat) : Bool :=
  decide (200 ≤ status) && decide (status < 300)

/-- The network-error heuristic of the catch block (auth.js lines 117-120):
`error.message.includes('Failed to fetch') || ... || includes('fetch')`. -/
def isNetworkErrorMessage (msg : String) : Bool :=
  jsIncludes msg "Failed to fetch" || jsIncludes msg "NetworkError" ||
    jsIncludes msg "Network request failed" || jsIncludes msg "fetch"

/-- The catch block of `apiRequest` (auth.js lines 114-124): a thrown
message matching the network heuristic is replaced by the generic
connection error; every other thrown error is re-thrown unchanged. -/
def rewriteCaught (msg : String) : String :=
  if isNetworkErrorMessage msg then connectionErrorMsg else msg

/-- `contentType.includes('application/json')` after lowercasing
(auth.js lines 66-67). -/
def contentTypeIsJson (ct : String) : Bool :=
  jsIncludes (jsToLower ct) "application/json"

/-- `responseText.trim().startsWith('{') || startsWith('[')`
(auth.js line 86). -/
def looksLikeJson (body : String) : Bool :=
  match (jsTrim body).toList with
  | [] => false
  | c :: _ => c = Char.ofNat 123 || c = Char.ofNat 91

/-- The body of the `try` block of `apiRequest` (auth.js lines 61-113),
before the catch-all rewrite: empty-body check, JSON detection, parse,
HTTP-status check, and the value or thrown message that results. -/
def rawRespond (parse : String → Option JsObject) :
    FetchOutcome → ApiOutcome
  | .netFail msg => .failure msg
  | .readFail _ => .failure connectionErrorMsg
  | .got status ct body =>
    if jsTrim body = "" then
      .failure (emptyResponseMsg status)
    else if contentTypeIsJson ct || looksLikeJson body then
      match parse body with
      | none => .failure (invalidJsonMsg body)
      | some result =>
        if respOk status then
          .success result
        else
          .failure (jsOrOpt result.message ("HTTP Error " ++ decimalStr status))
    else
      .failure (nonJsonMsg status)

/-- Apply the catch block to a thrown message, leaving returns unchanged. -/
def rewriteOutcome : ApiOutcome → ApiOutcome
  | .success r => .success r
  | .failure m => .failure (rewriteCaught m)

/-- Full observable behaviour of `apiRequest` on a fetch outcome
(auth.js lines 41-125). -/
def apiRequestRespond (parse : String → Option JsObject)
    (o : FetchOutcome) : ApiOutcome :=
  rewriteOutcome (rawRespond parse o)

/-- Observable UI actions of the client handlers: navigation, making a
form visible, starting the countdown at a number of seconds, stopping it,
and showing a message of a given kind. -/
inductive UiEffect where
  | navigate (page : String)
  | showForm (name : String)
  | startTimer (seconds : Nat)
  | stopTimer
  | showMsg (text : String) (kind : String)
deriving DecidableEq

/-- Observable effects of `showOtpForm` (auth.js lines 307-330): the OTP
form becomes visible and `startOtpTimer` resets the countdown to 300
seconds.  The identifier and type are recorded in the form dataset, which
the callers of this model pass around explicitly. -/
def showOtpFormEffects (_identifier _ty : String) : List UiEffect :=
  [.showForm "otp", .startTimer 300]

/-- Observable effects of `backToForm` (auth.js lines 333-358): the timer
stops and the form named by `dataset.type` becomes visible again. -/
def backToFormEffects (ty : Option String) : List UiEffect :=
  [.stopTimer] ++
    (if ty = some "login" then [.showForm "login"]
     else if ty = some "register" then [.showForm "register"]
     else [])

/-- The four raw field values read by `register` (auth.js lines 148-151),
before trimming. -/
structure RegisterFields where
  firstName : String
  lastName : String
  email : String
  phone : String
deriving DecidableEq

/-- First observable step of `register`: either a local validation error
with its message and no API request, or the POST request it proceeds to
send. -/
inductive RegisterStep where
  | validationError (msg : String)
  | sendRequest (endpoint method : String) (data : List (String × JsVal))
deriving DecidableEq

/-- Whether a register step is a local validation failure. -/
def RegisterStep.isValidationError : RegisterStep → Bool
  | .validationError _ => true
  | .sendRequest _ _ _ => false

/-- The request data object built by `register` (auth.js lines 167-177):
names always, email and phone only when non-blank. -/
def registerData (firstName lastName email phone : String) :
    List (String × JsVal) :=
  [("first_name", JsVal.vStr firstName), ("last_name", JsVal.vStr lastName)]
    ++ (if email = "" then [] else [("email", JsVal.vStr email)])
    ++ (if phone = "" then [] else [("phone", JsVal.vStr phone)])

/-- The validation and request construction of `register`
(auth.js lines 141-179). -/
def registerStep (f : RegisterFields) : RegisterStep :=
  let firstName := jsTrim f.firstName
  let lastName := jsTrim f.lastName
  let email := jsTrim f.email
  let phone := jsTrim f.phone
  if firstName = "" || lastName = "" then
    .validationError "Please enter first name and last name"
  else if email = "" && phone = "" then
    .validationError "Please enter email or phone number"
  else
    .sendRequest "/register" "POST" (registerData firstName lastName email phone)

/-- The response handling of `login` (auth.js lines 219-244), given the
trimmed email and phone fields and the outcome of the POST /login call:
direct login navigates to the dashboard; a non-direct success shows the
OTP form and starts the countdown; failures show a message. -/
def loginHandle (email phone : String) (outcome : ApiOutcome) :
    List UiEffect :=
  match outcome with
  | .success result =>
    if result.success then
      if result.dataDirectLogin || result.directLogin then
        [.navigate "dashboard.html"]
      else
        let identifier := jsOrOpt result.dataIdentifier
          (jsOrOpt result.identifier (jsOrS email phone))
        showOtpFormEffects identifier "login" ++
          [.showMsg (jsOrOpt result.message "Verification code sent") "success"]
    else
      [.showMsg (jsOrOpt result.message "Login error") "error"]
  | .failure m =>
    [.showMsg (jsOrS m connectionErrorMsg) "error"]

/-- JavaScript falsiness of an optional string: absent (null/undefined)
or the empty string. -/
def jsFalsyOpt : Option String → Bool
  | none => true
  | some s => s = ""

/-- Result of one `verifyOtp` call: the UI effects, the request it sent
(endpoint and data object), if any, and the value of the module-level
`isVerifyingOtp` flag when the call completes. -/
structure VerifyResult where
  effects : List UiEffect
  request : Option (String × List (String × JsVal))
  finalFlag : Bool
deriving DecidableEq

/-- The handling shared by the register and login branches of `verifyOtp`
(auth.js lines 395-419), given the outcome of the verification request. -/
def verifyOtpBranch (outcome : ApiOutcome) (okMsg : String) :
    List UiEffect :=
  match outcome with
  | .success r =>
    if r.success then
      [.stopTimer, .showMsg (jsOrOpt r.message okMsg) "success",
        .navigate "dashboard.html"]
    else
      [.showMsg (jsOrOpt r.message "Invalid verification code") "error"]
  | .failure m =>
    [.showMsg (jsOrS m connectionErrorMsg) "error"]

/-- One call to `verifyOtp` (auth.js lines 363-431): `flag` is the value
of `isVerifyingOtp` on entry, `ty` and `identifier` are the OTP form
dataset values (absent when unset), `fieldValue` is the current value of
the `otpCode` input, and `outcome` is what the API call would produce if
sent.  The catch and the `finally` that clears the flag are included. -/
def verifyOtp (flag : Bool) (ty identifier : Option String)
    (fieldValue : String) (outcome : ApiOutcome) : VerifyResult :=
  if flag then
    ⟨[], none, flag⟩
  else
    let otpCode := jsTrim fieldValue
    if otpCode = "" || !(otpCode.length = 6) then
      ⟨[.showMsg "Please enter a 6-digit code" "error"], none, false⟩
    else if jsFalsyOpt identifier then
      ⟨[.showMsg "Identifier not found. Please try again." "error"], none, false⟩
    else if ty = some "register" then
      ⟨verifyOtpBranch outcome "Registration successful",
        some ("/verify-otp",
          [("identifier", JsVal.vStr (identifier.getD "")),
            ("otp", JsVal.vStr otpCode)]), false⟩
    else if ty = some "login" then
      ⟨verifyOtpBranch outcome "Login successful",
        some ("/verify-login-otp",
          [("identifier", JsVal.vStr (identifier.getD "")),
            ("otp", JsVal.vStr otpCode)]), false⟩
    else
      ⟨[.showMsg "Unknown operation type" "error"], none, false⟩

/-- `email || null` for a possibly-absent input field value, as passed in
the /login request data (auth.js lines 221-222 and 455-456). -/
def jsOrNull (v : Option String) : JsVal :=
  match v with
  | none => .vNull
  | some s => if s = "" then .vNull else .vStr s

/-- Result of one `resendOtp` call: UI effects and the request it sent
(endpoint, method, data), if any. -/
structure ResendResult where
  effects : List UiEffect
  request : Option (String × String × List (String × JsVal))
deriving DecidableEq

/-- One call to `resendOtp` (auth.js lines 434-470): `ty` and `identifier`
are the OTP form dataset values, `loginEmailField` and `loginPhoneField`
the raw values of the login inputs when those elements exist, and
`outcome` what the API call would produce if sent. -/
def resendOtp (ty identifier : Option String)
    (loginEmailField loginPhoneField : Option String)
    (outcome : ApiOutcome) : ResendResult :=
  if jsFalsyOpt identifier then
    ⟨[.showMsg "Error retrieving information" "error"], none⟩
  else if ty = some "register" then
    ⟨[.showMsg "Please fill out the registration form again" "info"] ++
      backToFormEffects ty, none⟩
  else if ty = some "login" then
    let email := loginEmailField.map jsTrim
    let phone := loginPhoneField.map jsTrim
    let req := some ("/login", "POST",
      [("email", jsOrNull email), ("phone", jsOrNull phone)])
    match outcome with
    | .success r =>
      if r.success then
        ⟨[.startTimer 300, .showMsg "Verification code resent" "success"], req⟩
      else
        ⟨[.showMsg (jsOrOpt r.message "Error resending code") "error"], req⟩
    | .failure _ =>
      ⟨[.showMsg "Server connection error" "error"], req⟩
  else
    ⟨[], none⟩

/-- The response handling of `logout` (auth.js lines 473-484): navigate to
the login page when the parsed result has `success` true or when the call
threw; a returned result with `success` false does nothing. -/
def logoutHandle (outcome : ApiOutcome) : List UiEffect :=
  match outcome with
  | .success r => if r.success then [.navigate "index.html"] else []
  | .failure _ => [.navigate "index.html"]

/-- `logout` composed with the response classification of `apiRequest`. -/
def logoutRun (parse : String → Option JsObject) (o : FetchOutcome) :
    List UiEffect :=
  logoutHandle (apiRequestRespond parse o)

/-- State of the browser timer machinery relevant to the OTP countdown:
`activeIntervals` is the set (as a list) of interval ids currently
registered with `setInterval`, `otpTimerInterval` and `otpTimerSeconds`
are the module-level variables of auth.js (lines 5-6), and `nextId` is
the next id the browser will hand out. -/
structure TimerState where
  activeIntervals : List Nat
  otpTimerInterval : Option Nat
  otpTimerSeconds : Int
  nextId : Nat
deriving DecidableEq

/-- The module-level initial state: no interval, 300 seconds. -/
def timerInit : TimerState :=
  ⟨[], none, 300, 1⟩

/-- `stopOtpTimer` (auth.js lines 279-284): clear the tracked interval,
if any, and null the variable. -/
def stopOtpTimer (s : TimerState) : TimerState :=
  match s.otpTimerInterval with
  | some id =>
    { s with activeIntervals := s.activeIntervals.erase id,
             otpTimerInterval := none }
  | none => s

/-- `startOtpTimer` (auth.js lines 250-276): reset the counter to 300,
clear any existing interval, and, when the timer element exists, register
a fresh interval and track it. -/
def startOtpTimer (timerElementExists : Bool) (s : TimerState) : TimerState :=
  let s1 := stopOtpTimer { s with otpTimerSeconds := 300 }
  if timerElementExists then
    { s1 with activeIntervals := s1.nextId :: s1.activeIntervals,
              otpTimerInterval := some s1.nextId,
              nextId := s1.nextId + 1 }
  else
    s1

/-- One firing of the countdown callback (auth.js lines 265-275): it runs
only while some interval is registered, decrements the counter, and at
zero clears the interval via `stopOtpTimer`. -/
def timerTick (s : TimerState) : TimerState :=
  if s.activeIntervals = [] then s
  else
    let s1 := { s with otpTimerSeconds := s.otpTimerSeconds - 1 }
    if s1.otpTimerSeconds ≤ 0 then stopOtpTimer s1 else s1

/-- States the timer machinery can reach from page load through any
sequence of `startOtpTimer` calls, callback firings, and `stopOtpTimer`
calls (the latter issued by `backToForm` and on successful verification). -/
inductive TimerReachable : TimerState → Prop where
  | init : TimerReachable timerInit
  | start (b : Bool) {s : TimerState} :
      TimerReachable s → TimerReachable (startOtpTimer b s)
  | tick {s : TimerState} :
      TimerReachable s → TimerReachable (timerTick s)
  | stop {s : TimerState} :
      TimerReachable s → TimerReachable (stopOtpTimer s)

/-- The invariant tying the browser interval set to the module variable:
the registered intervals are exactly the tracked one, and every
registered id is below the next fresh id. -/
def timerInv (s : TimerState) : Prop :=
  s.activeIntervals = s.otpTimerInterval.toList ∧
    ∀ id ∈ s.activeIntervals, id < s.nextId

/-! Helper lemmas about the string model. -/

theorem listStarts_subset {p l : List Char} (h : listStarts p l = true) :
    ∀ c ∈ p, c ∈ l := by
  induction p generalizing l with
  | nil => simp
  | cons a as ih =>
    cases l with
    | nil => simp [listStarts] at h
    | cons b bs =>
      simp only [listStarts, Bool.and_eq_true, decide_eq_true_eq] at h
      obtain ⟨hab, hrest⟩ := h
      intro c hc
      rcases List.mem_cons.mp hc with rfl | hc
      · exact hab ▸ List.mem_cons_self b bs
      · exact List.mem_cons_of_mem _ (ih hrest c hc)

theorem listHasSub_subset {sub l : List Char} (h : listHasSub sub l = true) :
    ∀ c ∈ sub, c ∈ l := by
  induction l with
  | nil =>
    cases sub with
    | nil => simp
    | cons a as => simp [listHasSub, listStarts] at h
  | cons b bs ih =>
    simp only [listHasSub, Bool.or_eq_true] at h
    rcases h with h | h
    · exact listStarts_subset h
    · intro c hc
      exact List.mem_cons_of_mem _ (ih h c hc)

theorem jsIncludes_false_of_missing {s sub : String} (c : Char)
    (hc : c ∈ sub.toList) (hs : c ∉ s.toList) : jsIncludes s sub = false := by
  cases h : listHasSub sub.toList s.toList with
  | false => simpa [jsIncludes] using h
  | true => exact absurd (listHasSub_subset h c hc) hs

theorem toList_mk (l : List Char) : (String.mk l).toList = l := rfl

theorem toList_append (a b : String) :
    (a ++ b).toList = a.toList ++ b.toList := rfl

theorem digitAt_isDigit (k : Nat) :
    ("0123456789".toList.getD k '0').isDigit = true := by
  rcases Nat.lt_or_ge k 10 with h | h
  · interval_cases k <;> decide
  · rw [List.getD_eq_default _ _ (by simpa using h)]
    decide

theorem decimalChars_digits (n : Nat) :
    ∀ c ∈ decimalChars n, c.isDigit = true := by
  induction n using Nat.strong_induction_on with
  | _ n ih =>
    match n with
    | 0 => simp [decimalChars]
    | m + 1 =>
      rw [decimalChars]
      intro c hc
      rcases List.mem_append.mp hc with hc | hc
      · exact ih ((m + 1) / 10) (Nat.div_lt_self (Nat.succ_pos m) (by omega)) c hc
      · rcases List.mem_singleton.mp hc with rfl
        exact digitAt_isDigit _

theorem decimalStr_digits (n : Nat) :
    ∀ c ∈ (decimalStr n).toList, c.isDigit = true := by
  intro c hc
  unfold decimalStr at hc
  split at hc
  · rcases List.mem_singleton.mp hc with rfl
    decide
  · exact decimalChars_digits n c (by simpa [toList_mk] using hc)

theorem not_mem_decimalStr_of_not_digit {c : Char} (n : Nat)
    (h : c.isDigit = false) : c ∉ (decimalStr n).toList := by
  intro hc
  have := decimalStr_digits n c hc
  rw [h] at this
  exact Bool.false_ne_true this

theorem isNetworkErrorMessage_of_no_f_w {s : String}
    (hf : ('f' : Char) ∉ s.toList) (hw : ('w' : Char) ∉ s.toList) :
    isNetworkErrorMessage s = false := by
  unfold isNetworkErrorMessage
  rw [jsIncludes_false_of_missing 'f' (by decide) hf,
    jsIncludes_false_of_missing 'w' (by decide) hw,
    jsIncludes_false_of_missing 'f' (by decide) hf,
    jsIncludes_false_of_missing 'f' (by decide) hf]
  rfl

theorem isNetworkErrorMessage_emptyResponseMsg (status : Nat) :
    isNetworkErrorMessage (emptyResponseMsg status) = false := by
  apply isNetworkErrorMessage_of_no_f_w <;>
  · unfold emptyResponseMsg
    rw [toList_append, toList_append]
    simp only [List.mem_append, not_or]
    refine ⟨⟨by decide, ?_⟩, by decide⟩
    exact not_mem_decimalStr_of_not_digit status (by decide)

theorem isNetworkErrorMessage_nonJsonMsg (status : Nat) :
    isNetworkErrorMessage (nonJsonMsg status) = false := by
  apply isNetworkErrorMessage_of_no_f_w <;>
  · unfold nonJsonMsg
    rw [toList_append, toList_append]
    simp only [List.mem_append, not_or]
    refine ⟨⟨by decide, ?_⟩, by decide⟩
    exact not_mem_decimalStr_of_not_digit status (by decide)

theorem respOk_false_of_ge400 {status : Nat} (h : 400 ≤ status) :
    respOk status = false := by
  simp only [respOk, Bool.and_eq_false_iff, decide_eq_false_iff_not]
  omega

/-! Claim theorems. -/

/-- Characterization of the field-stripping predicate. -/
theorem JsVal.kept_iff (v : JsVal) :
    v.kept = true ↔
      v ≠ JsVal.vNull ∧ v ≠ JsVal.vUndefined ∧ v ≠ JsVal.vStr "" := by
  cases v <;> simp [JsVal.kept]

/-- Claim C2: for every non-GET request with a data object, the body sent
by apiRequest contains exactly the pairs of the data object whose values
are not null, not undefined, and not the empty string; no key is ever
serialized with an explicit null, undefined, or empty-string value. -/
theorem claim2_clean_payload (method : String) (data : List (String × JsVal))
    (h : method ≠ "GET") :
    apiRequestBody method (some data) = some (cleanData data) ∧
      (∀ k v, (k, v) ∈ cleanData data ↔
        ((k, v) ∈ data ∧ v ≠ JsVal.vNull ∧ v ≠ JsVal.vUndefined ∧
          v ≠ JsVal.vStr "")) := by
  refine ⟨by simp [apiRequestBody, h], ?_⟩
  intro k v
  rw [cleanData, List.mem_filter]
  exact and_congr_right fun _ => JsVal.kept_iff v

/-- Witness for claim C2 at a concrete POST payload. -/
theorem claim2_witness :
    apiRequestBody "POST"
        (some [("a", JsVal.vNull), ("b", JsVal.vStr "x"), ("c", JsVal.vStr "")]) =
      some (cleanData
        [("a", JsVal.vNull), ("b", JsVal.vStr "x"), ("c", JsVal.vStr "")]) :=
  (claim2_clean_payload "POST" _ (by decide)).1

/-- Claim C3: a verifyOtp call entered while the in-flight flag is set
returns immediately, produces no effect and no request, and leaves the
flag set; a call entered with the flag clear ends with the flag cleared on
every completion path (success, application failure, thrown error). -/
theorem claim3_reentrancy_guard :
    (∀ (ty identifier : Option String) (v : String) (o : ApiOutcome),
      verifyOtp true ty identifier v o = ⟨[], none, true⟩) ∧
    (∀ (ty identifier : Option String) (v : String) (o : ApiOutcome),
      (verifyOtp false ty identifier v o).finalFlag = false) := by
  constructor
  · intro ty identifier v o
    rfl
  · intro ty identifier v o
    unfold verifyOtp
    dsimp only
    split_ifs <;> rfl

/-- Claim C10: apiRequest never attaches a body to a GET request, even
when a data object is passed. -/
theorem claim10_get_no_body (data : List (String × JsVal)) :
    apiRequestBody "GET" (some data) = none := by
  simp [apiRequestBody]

/-- Counterexample to claim C1 as stated: with first name "Ali", blank
last name, and an email present, neither of the claim's failure conditions
holds (the names are not both blank, an identifier is present), yet
register fails with a validation error and sends no request, because the
code requires each name separately to be non-blank. -/
theorem claim1_counterexample :
    (registerStep ⟨"Ali", "", "ali@example.com", ""⟩).isValidationError = true ∧
      ¬ ((jsTrim "Ali" = "" ∧ jsTrim "" = "") ∨
        (jsTrim "ali@example.com" = "" ∧ jsTrim "" = "")) := by
  constructor
  · decide
  · decide

/-- Claim C1 as amended: register fails with a validation error and issues
no API request exactly when either trimmed name is blank or neither
identifier is present; on every other input it proceeds to send a POST
/register request. -/
theorem claim1_amended (f : RegisterFields) :
    ((registerStep f).isValidationError = true ↔
      (jsTrim f.firstName = "" ∨ jsTrim f.lastName = "" ∨
        (jsTrim f.email = "" ∧ jsTrim f.phone = ""))) ∧
    (¬ (jsTrim f.firstName = "" ∨ jsTrim f.lastName = "" ∨
        (jsTrim f.email = "" ∧ jsTrim f.phone = "")) →
      registerStep f = RegisterStep.sendRequest "/register" "POST"
        (registerData (jsTrim f.firstName) (jsTrim f.lastName)
          (jsTrim f.email) (jsTrim f.phone))) := by
  by_cases ha : jsTrim f.firstName = "" <;>
    by_cases hb : jsTrim f.lastName = "" <;>
      by_cases hc : jsTrim f.email = "" <;>
        by_cases hd : jsTrim f.phone = "" <;>
          simp [registerStep, RegisterStep.isValidationError, ha, hb, hc, hd]

/-- Witness for the amended claim C1 at a concrete valid registration. -/
theorem claim1_witness :
    registerStep ⟨" Ali ", "Ahmadi", "ali@example.com", ""⟩ =
      RegisterStep.sendRequest "/register" "POST"
        (registerData (jsTrim " Ali ") (jsTrim "Ahmadi")
          (jsTrim "ali@example.com") (jsTrim "")) :=
  (claim1_amended _).2 (by decide)

/-- Claim C6: on a successful login response indicating direct login the
client navigates to the dashboard and never shows the OTP form or starts
the countdown; on a successful response not indicating direct login it
shows the OTP form and starts the countdown and does not navigate. -/
theorem claim6_direct_login (email phone : String) (r : JsObject)
    (hs : r.success = true) :
    ((r.dataDirectLogin || r.directLogin) = true →
      loginHandle email phone (.success r) = [.navigate "dashboard.html"] ∧
      (∀ n, UiEffect.startTimer n ∉ loginHandle email phone (.success r)) ∧
      UiEffect.showForm "otp" ∉ loginHandle email phone (.success r)) ∧
    ((r.dataDirectLogin || r.directLogin) = false →
      UiEffect.showForm "otp" ∈ loginHandle email phone (.success r) ∧
      UiEffect.startTimer 300 ∈ loginHandle email phone (.success r) ∧
      UiEffect.navigate "dashboard.html" ∉ loginHandle email phone (.success r)) := by
  constructor
  · intro hd
    simp [loginHandle, hs, hd]
  · intro hd
    simp [loginHandle, hs, hd, showOtpFormEffects]

/-- Witness for claim C6: a concrete direct-login response navigates. -/
theorem claim6_witness :
    loginHandle "ali@example.com" ""
        (.success { success := true, directLogin := true }) =
      [UiEffect.navigate "dashboard.html"] :=
  ((claim6_direct_login "ali@example.com" ""
      { success := true, directLogin := true } rfl).1 (by decide)).1

/-- Every character of the sanitized OTP field value is a digit. -/
theorem otpSanitize_digits (s : String) :
    ∀ c ∈ (otpSanitize s).toList, c.isDigit = true := by
  intro c hc
  rw [otpSanitize, toList_mk] at hc
  exact (List.mem_filter.mp hc).2

/-- Characters survive `jsTrim` only if present in the original string. -/
theorem mem_of_mem_jsTrim {c : Char} {s : String}
    (h : c ∈ (jsTrim s).toList) : c ∈ s.toList := by
  rw [jsTrim, toList_mk] at h
  rw [List.mem_reverse] at h
  have h1 := (List.dropWhile_sublist Char.isWhitespace).subset h
  rw [List.mem_reverse] at h1
  exact (List.dropWhile_sublist Char.isWhitespace).subset h1

/-- Claim C4: with the input listener sanitizing the OTP field to digits,
verifyOtp sends a verification request only when the trimmed field value
is exactly 6 digits; whenever it is not 6 characters long, no request is
sent and the 6-digit error message is shown. -/
theorem claim4_six_digit_gate (raw : String) (ty identifier : Option String)
    (o : ApiOutcome) :
    (∀ c ∈ (otpSanitize raw).toList, c.isDigit = true) ∧
    ((verifyOtp false ty identifier (otpSanitize raw) o).request.isSome = true →
      (jsTrim (otpSanitize raw)).length = 6 ∧
      ∀ c ∈ (jsTrim (otpSanitize raw)).toList, c.isDigit = true) ∧
    (¬ (jsTrim (otpSanitize raw)).length = 6 →
      (verifyOtp false ty identifier (otpSanitize raw) o).request = none ∧
      UiEffect.showMsg "Please enter a 6-digit code" "error" ∈
        (verifyOtp false ty identifier (otpSanitize raw) o).effects) := by
  refine ⟨otpSanitize_digits raw, ?_, ?_⟩
  · intro hreq
    by_cases h6 : (jsTrim (otpSanitize raw)).length = 6
    · exact ⟨h6, fun c hc => otpSanitize_digits raw c (mem_of_mem_jsTrim hc)⟩
    · rw [verifyOtp] at hreq
      dsimp only at hreq
      rw [if_neg (by simp), if_pos (by simp [h6])] at hreq
      simp at hreq
  · intro h6
    rw [verifyOtp]
    dsimp only
    rw [if_neg (by simp), if_pos (by simp [h6])]
    constructor
    · rfl
    · simp

/-- Witness for claim C4: a concrete entered code that produces a request
is 6 characters long after trimming. -/
theorem claim4_witness : (jsTrim (otpSanitize "123456")).length = 6 :=
  ((claim4_six_digit_gate "123456" (some "login") (some "x@y.z")
      (.failure "boom")).2.1 (by decide)).1

/-- Claim C8: while the OTP form is in login mode, resendOtp re-issues a
POST /login request, and on a successful response restarts the 300-second
countdown; while the form is in register mode, no request is sent and the
registration form is shown again. -/
theorem claim8_resend_login_path (id : String) (e p : Option String)
    (o : ApiOutcome) (r : JsObject) (hid : id ≠ "") :
    ((resendOtp (some "login") (some id) e p o).request =
        some ("/login", "POST",
          [("email", jsOrNull (e.map jsTrim)), ("phone", jsOrNull (p.map jsTrim))]) ∧
      (o = .success r → r.success = true →
        UiEffect.startTimer 300 ∈ (resendOtp (some "login") (some id) e p o).effects)) ∧
    ((resendOtp (some "register") (some id) e p o).request = none ∧
      UiEffect.showForm "register" ∈
        (resendOtp (some "register") (some id) e p o).effects) := by
  have hfalsy : jsFalsyOpt (some id) = false := by simp [jsFalsyOpt, hid]
  refine ⟨⟨?_, ?_⟩, ?_, ?_⟩
  · cases o with
    | success r' =>
      by_cases hr : r'.success = true <;> simp [resendOtp, hfalsy, hr]
    | failure m => simp [resendOtp, hfalsy]
  · rintro rfl hr
    simp [resendOtp, hfalsy, hr]
  · simp [resendOtp, hfalsy]
  · simp [resendOtp, hfalsy, backToFormEffects]

/-- Witness for claim C8 at a concrete login-mode resend. -/
theorem claim8_witness :
    (resendOtp (some "login") (some "ali@example.com")
        (some "ali@example.com") (some "") (.success { success := true })).request =
      some ("/login", "POST",
        [("email", jsOrNull ((some "ali@example.com").map jsTrim)),
          ("phone", jsOrNull ((some "").map jsTrim))]) :=
  ((claim8_resend_login_path "ali@example.com" (some "ali@example.com")
      (some "") (.success { success := true }) { success := true }
      (by decide)).1).1

/-- A concrete response body carrying an application failure. -/
def logoutFailureBody : String := "\x7b\"success\":false\x7d"

/-- A parse oracle for the concrete body above. -/
def logoutFailureParse : String → Option JsObject :=
  fun s => if s = logoutFailureBody then some { success := false } else none

/-- Counterexample to claim C7 as stated: an application failure delivered
with an ok HTTP status (a 200 response whose well-formed JSON body has
success false) makes logout complete without error but without navigating
anywhere, contrary to the claim that every outcome navigates to the login
page. -/
theorem claim7_counterexample :
    logoutRun logoutFailureParse
        (.got 200 "application/json" logoutFailureBody) = [] ∧
      UiEffect.navigate "index.html" ∉
        logoutRun logoutFailureParse
          (.got 200 "application/json" logoutFailureBody) := by
  constructor
  · rfl
  · decide

/-- Claim C7 as amended: logout never propagates an error, and it
navigates to the login page on every thrown error, on every returned
result with success true, and on every application failure delivered per
the API contract with HTTP status at least 400; only a returned result
with success false (an ok HTTP status carrying success false) completes
without navigating. -/
theorem claim7_amended :
    (∀ m, logoutHandle (.failure m) = [UiEffect.navigate "index.html"]) ∧
    (∀ r : JsObject, r.success = true →
      logoutHandle (.success r) = [UiEffect.navigate "index.html"]) ∧
    (∀ r : JsObject, r.success = false → logoutHandle (.success r) = []) ∧
    (∀ (parse : String → Option JsObject) (status : Nat) (ct body : String)
        (r : JsObject), parse body = some r → ¬ jsTrim body = "" →
      (contentTypeIsJson ct = true ∨ looksLikeJson body = true) →
      400 ≤ status →
      logoutRun parse (.got status ct body) = [UiEffect.navigate "index.html"]) := by
  refine ⟨fun m => rfl, fun r hr => by simp [logoutHandle, hr],
    fun r hr => by simp [logoutHandle, hr], ?_⟩
  intro parse status ct body r hp hne hj h4
  simp only [logoutRun, apiRequestRespond, rawRespond]
  rw [if_neg hne]
  have hj' : (contentTypeIsJson ct || looksLikeJson body) = true := by
    rcases hj with h | h <;> simp [h]
  rw [if_pos hj', hp, respOk_false_of_ge400 h4]
  rfl

/-- Witness for the amended claim C7 at a concrete successful logout. -/
theorem claim7_witness :
    logoutHandle (.success { success := true }) = [UiEffect.navigate "index.html"] :=
  claim7_amended.2.1 { success := true } rfl

/-- The generic connection error message matches none of the network
substrings, so the catch block re-throws it unchanged. -/
theorem isNetworkErrorMessage_connectionErrorMsg :
    isNetworkErrorMessage connectionErrorMsg = false := by decide

/-- A concrete 400 response whose server-supplied message happens to
contain the substring "fetch". -/
def conflatedBody : String :=
  "\x7b\"success\":false,\"message\":\"Failed to fetch\"\x7d"

/-- A parse oracle for the concrete body above. -/
def conflatedParse : String → Option JsObject :=
  fun s =>
    if s = conflatedBody then
      some { success := false, message := some "Failed to fetch" }
    else none

/-- Counterexample to claim C5 as stated: a well-formed JSON body with
HTTP status 400 whose server-supplied message contains "fetch" does not
raise an error carrying that message; the catch-all heuristic of
apiRequest replaces it with the generic connection error, conflating the
application rejection with a transport failure. -/
theorem claim5_counterexample :
    apiRequestRespond conflatedParse
        (.got 400 "application/json" conflatedBody) =
      .failure connectionErrorMsg ∧
    ¬ connectionErrorMsg = "Failed to fetch" := by
  constructor
  · rfl
  · decide

/-- Claim C5 as amended: apiRequest raises the status-determined empty-
response error on an empty body, the status-determined non-JSON error on
a body not recognized as JSON, and the generic connection error on
network and read failures; on a body recognized as JSON that fails to
parse it raises the parse error (or the connection error when that text
matches the network heuristic); on a parsed body with status at least 400
it raises an error carrying the server-supplied message, provided that
message does not contain one of the network substrings ("Failed to
fetch", "NetworkError", "Network request failed", "fetch"), in which case
the catch block replaces it with the generic connection error; and a
parsed body with an ok status is returned to the caller. -/
theorem claim5_amended :
    (∀ (parse : String → Option JsObject) (status : Nat) (ct body : String),
      jsTrim body = "" →
      apiRequestRespond parse (.got status ct body) =
        .failure (emptyResponseMsg status)) ∧
    (∀ (parse : String → Option JsObject) (status : Nat) (ct body : String),
      ¬ jsTrim body = "" →
      contentTypeIsJson ct = false → looksLikeJson body = false →
      apiRequestRespond parse (.got status ct body) =
        .failure (nonJsonMsg status)) ∧
    (∀ (parse : String → Option JsObject) (m : String),
      isNetworkErrorMessage m = true →
      apiRequestRespond parse (.netFail m) = .failure connectionErrorMsg) ∧
    (∀ (parse : String → Option JsObject) (status : Nat),
      apiRequestRespond parse (.readFail status) =
        .failure connectionErrorMsg) ∧
    (∀ (parse : String → Option JsObject) (status : Nat) (ct body : String),
      ¬ jsTrim body = "" →
      (contentTypeIsJson ct = true ∨ looksLikeJson body = true) →
      parse body = none →
      (apiRequestRespond parse (.got status ct body) =
          .failure (invalidJsonMsg body) ∨
        apiRequestRespond parse (.got status ct body) =
          .failure connectionErrorMsg)) ∧
    (∀ (parse : String → Option JsObject) (status : Nat) (ct body : String)
        (r : JsObject) (m : String),
      ¬ jsTrim body = "" →
      (contentTypeIsJson ct = true ∨ looksLikeJson body = true) →
      parse body = some r → r.message = some m → ¬ m = "" →
      isNetworkErrorMessage m = false → 400 ≤ status →
      apiRequestRespond parse (.got status ct body) = .failure m) ∧
    (∀ (parse : String → Option JsObject) (status : Nat) (ct body : String)
        (r : JsObject),
      ¬ jsTrim body = "" →
      (contentTypeIsJson ct = true ∨ looksLikeJson body = true) →
      parse body = some r → respOk status = true →
      apiRequestRespond parse (.got status ct body) = .success r) := by
  refine ⟨?_, ?_, ?_, ?_, ?_, ?_, ?_⟩
  · intro parse status ct body he
    simp only [apiRequestRespond, rawRespond]
    rw [if_pos he]
    simp [rewriteOutcome, rewriteCaught, isNetworkErrorMessage_emptyResponseMsg]
  · intro parse status ct body hne hct hlk
    simp only [apiRequestRespond, rawRespond]
    rw [if_neg hne, if_neg (by simp [hct, hlk])]
    simp [rewriteOutcome, rewriteCaught, isNetworkErrorMessage_nonJsonMsg]
  · intro parse m hm
    simp [apiRequestRespond, rawRespond, rewriteOutcome, rewriteCaught, hm]
  · intro parse status
    simp [apiRequestRespond, rawRespond, rewriteOutcome, rewriteCaught,
      isNetworkErrorMessage_connectionErrorMsg]
  · intro parse status ct body hne hj hp
    simp only [apiRequestRespond, rawRespond]
    rw [if_neg hne, if_pos (by rcases hj with h | h <;> simp [h]), hp]
    by_cases hn : isNetworkErrorMessage (invalidJsonMsg body) = true
    · right
      simp [rewriteOutcome, rewriteCaught, hn]
    · left
      simp only [Bool.not_eq_true] at hn
      simp [rewriteOutcome, rewriteCaught, hn]
  · intro parse status ct body r m hne hj hp hm hm0 hnet h4
    simp only [apiRequestRespond, rawRespond]
    rw [if_neg hne, if_pos (by rcases hj with h | h <;> simp [h]), hp,
      respOk_false_of_ge400 h4]
    simp [rewriteOutcome, rewriteCaught, hm, jsOrOpt, hm0, hnet]
  · intro parse status ct body r hne hj hp hok
    simp only [apiRequestRespond, rawRespond]
    rw [if_neg hne, if_pos (by rcases hj with h | h <;> simp [h]), hp, hok]
    rfl

/-- Witness for the amended claim C5: a parsed 200 response is returned
to the caller. -/
theorem claim5_witness :
    apiRequestRespond (fun _ => some { success := true })
        (.got 200 "application/json" "\x7b\x7d") =
      .success { success := true } :=
  claim5_amended.2.2.2.2.2.2 (fun _ => some { success := true }) 200
    "application/json" "\x7b\x7d" { success := true } (by decide)
    (Or.inl (by decide)) rfl (by decide)

/-- stopOtpTimer never changes the countdown value. -/
theorem stopOtpTimer_seconds (t : TimerState) :
    (stopOtpTimer t).otpTimerSeconds = t.otpTimerSeconds := by
  unfold stopOtpTimer
  cases t.otpTimerInterval <;> rfl

/-- stopOtpTimer never changes the fresh-id counter. -/
theorem stopOtpTimer_nextId (t : TimerState) :
    (stopOtpTimer t).nextId = t.nextId := by
  unfold stopOtpTimer
  cases t.otpTimerInterval <;> rfl

/-- Under the invariant, stopOtpTimer leaves no registered interval. -/
theorem stopOtpTimer_clears {s : TimerState} (h : timerInv s) :
    (stopOtpTimer s).activeIntervals = [] ∧
      (stopOtpTimer s).otpTimerInterval = none := by
  obtain ⟨h1, h2⟩ := h
  unfold stopOtpTimer
  cases hoi : s.otpTimerInterval with
  | none =>
    refine ⟨?_, hoi⟩
    rw [h1, hoi]
    rfl
  | some id =>
    refine ⟨?_, rfl⟩
    rw [h1, hoi]
    simp

/-- The invariant survives stopOtpTimer. -/
theorem timerInv_stop {s : TimerState} (h : timerInv s) :
    timerInv (stopOtpTimer s) := by
  obtain ⟨hl, hn⟩ := stopOtpTimer_clears h
  exact ⟨by rw [hl, hn]; rfl, by rw [hl]; simp⟩

/-- The invariant survives startOtpTimer. -/
theorem timerInv_start {s : TimerState} (h : timerInv s) (b : Bool) :
    timerInv (startOtpTimer b s) := by
  have h300 : timerInv ({ s with otpTimerSeconds := 300 }) := h
  have hc := stopOtpTimer_clears h300
  unfold startOtpTimer
  dsimp only
  split
  · refine ⟨?_, ?_⟩
    · rw [hc.1]
      rfl
    · intro id hid
      rw [hc.1] at hid
      simp at hid
      simp [hid]
  · exact timerInv_stop h300

/-- The invariant survives a firing of the countdown callback. -/
theorem timerInv_tick {s : TimerState} (h : timerInv s) :
    timerInv (timerTick s) := by
  unfold timerTick
  dsimp only
  split
  · exact h
  · split
    · exact timerInv_stop h
    · exact h

/-- The invariant holds in every reachable timer state. -/
theorem timerInv_reachable {s : TimerState} (hs : TimerReachable s) :
    timerInv s := by
  induction hs with
  | init => exact ⟨rfl, by simp [timerInit]⟩
  | start b _ ih => exact timerInv_start ih b
  | tick _ ih => exact timerInv_tick ih
  | stop _ ih => exact timerInv_stop ih

/-- Claim C9: in every reachable state at most one countdown interval is
registered; every startOtpTimer call resets the countdown to exactly 300
seconds and removes any previously registered interval before installing
its own; and when a callback firing brings the counter to zero or below,
it deregisters its interval, so two concurrent decrementing intervals
never exist. -/
theorem claim9_single_timer (s : TimerState) (hs : TimerReachable s) :
    s.activeIntervals.length ≤ 1 ∧
    (∀ b, (startOtpTimer b s).otpTimerSeconds = 300) ∧
    (∀ b id, id ∈ s.activeIntervals →
      id ∉ (startOtpTimer b s).activeIntervals) ∧
    ((timerTick s).otpTimerSeconds ≤ 0 →
      (timerTick s).activeIntervals = []) := by
  have hinv := timerInv_reachable hs
  obtain ⟨h1, h2⟩ := hinv
  refine ⟨?_, ?_, ?_, ?_⟩
  · rw [h1]
    cases s.otpTimerInterval <;> simp [Option.toList]
  · intro b
    unfold startOtpTimer
    dsimp only
    split <;> rw [stopOtpTimer_seconds]
  · intro b id hid
    have hlt : id < s.nextId := h2 id hid
    have hc := stopOtpTimer_clears (s := { s with otpTimerSeconds := 300 })
      ⟨h1, h2⟩
    unfold startOtpTimer
    dsimp only
    split
    · intro hmem
      rw [hc.1] at hmem
      rw [stopOtpTimer_nextId] at hmem
      simp at hmem
      omega
    · intro hmem
      rw [hc.1] at hmem
      simp at hmem
  · intro ht
    by_cases ha : s.activeIntervals = []
    · simp [timerTick, ha]
    · rw [timerTick] at ht ⊢
      dsimp only at ht ⊢
      rw [if_neg ha] at ht ⊢
      by_cases hz : s.otpTimerSeconds - 1 ≤ 0
      · rw [if_pos hz]
        exact (stopOtpTimer_clears (s := { s with otpTimerSeconds :=
          s.otpTimerSeconds - 1 }) ⟨h1, h2⟩).1
      · rw [if_neg hz] at ht
        exact absurd ht hz

/-- Witness for claim C9 at the initial timer state. -/
theorem claim9_witness : timerInit.activeIntervals.length ≤ 1 :=
  (claim9_single_timer timerInit TimerReachable.init).1

end AuthClient
